import Mathlib

/-!
Verification development for the GitHub comment/expert harvesting engine
(`comment_crawler.py`, `restapi_crawler.py`, `github_api.py`).

Shallow embedding conventions:
* Python strings are modelled as `List Char`; `str.strip` / `str.isspace` /
  `str.isalpha and str.isascii` / `str.lower` are modelled character-exactly on
  the code-point ranges they test (see `pyIsSpace`, `pyIsAlphaAscii`, `pyLower`).
* The float comparison `english_ratio < 0.4` is modelled by the exact rational
  comparison `5 * alphaCount < 2 * nonSpaceCount`; for character counts of any
  realistic comment length the two agree (the nearest distinct rational a/b with
  b below 10^7 differs from 2/5 by far more than one double ulp).
* Comment dictionaries produced by both crawlers always carry the
  `comment_url` key; its possibly-null value is modelled as `Option String`
  (`none` = JSON null / missing URL).
* Network interaction is modelled by a list of classified responses consumed in
  order; logging, progress bars and `time.sleep` have no observable effect on
  the data and are not modelled.
-/

/-- Model of Python `str.isspace` on a single character: true exactly on the
whitespace code points Python recognises (ASCII controls 9–13 and 28–31, space,
NEL, NBSP, and the Unicode space separators). -/
def pyIsSpace (c : Char) : Bool :=
  decide ((9 ≤ c.toNat ∧ c.toNat ≤ 13) ∨ (28 ≤ c.toNat ∧ c.toNat ≤ 31) ∨
    c.toNat = 32 ∨ c.toNat = 133 ∨ c.toNat = 160 ∨ c.toNat = 5760 ∨
    (8192 ≤ c.toNat ∧ c.toNat ≤ 8202) ∨ c.toNat = 8232 ∨ c.toNat = 8233 ∨
    c.toNat = 8239 ∨ c.toNat = 8287 ∨ c.toNat = 12288)

/-- Model of Python `c.isalpha() and c.isascii()`: true exactly on the ASCII
letters `A`–`Z` and `a`–`z`. -/
def pyIsAlphaAscii (c : Char) : Bool :=
  decide ((65 ≤ c.toNat ∧ c.toNat ≤ 90) ∨ (97 ≤ c.toNat ∧ c.toNat ≤ 122))

/-- Model of Python `str.strip()`: drop leading and trailing whitespace. -/
def pyStrip (s : List Char) : List Char :=
  ((s.dropWhile pyIsSpace).reverse.dropWhile pyIsSpace).reverse

/-- Model of Python `str.lower()` (ASCII-faithful; only ASCII letters occur in
the usernames compared by the crawlers). -/
def pyLower (s : List Char) : List Char :=
  s.map fun c => if 65 ≤ c.toNat ∧ c.toNat ≤ 90 then Char.ofNat (c.toNat + 32) else c

namespace GitHubCommentCrawler

/-- Embedding of `GitHubCommentCrawler.is_valid_comment`
(`src/comment_crawler.py` lines 409–457): reject blank or whitespace-only
text, stripped length below 10, and text whose ASCII-letter share of
non-whitespace characters is below 40% (exact-rational model of the float
test `english_ratio < 0.4`); accept everything else.  The `non_space_count
== 0` guard of the source is kept verbatim. -/
def is_valid_comment (s : List Char) : Bool :=
  if s = [] ∨ pyStrip s = [] then false
  else if (pyStrip s).length < 10 then false
  else if ((pyStrip s).filter (fun c => !pyIsSpace c)).length = 0 then false
  else if 5 * ((pyStrip s).filter pyIsAlphaAscii).length <
      2 * ((pyStrip s).filter (fun c => !pyIsSpace c)).length then false
  else true

end GitHubCommentCrawler

namespace RestAPICommentCrawler

/-- Embedding of `RestAPICommentCrawler.is_valid_comment`
(`src/restapi_crawler.py` lines 384–432); the source is textually identical to
the GraphQL crawler's copy. -/
def is_valid_comment (s : List Char) : Bool :=
  if s = [] ∨ pyStrip s = [] then false
  else if (pyStrip s).length < 10 then false
  else if ((pyStrip s).filter (fun c => !pyIsSpace c)).length = 0 then false
  else if 5 * ((pyStrip s).filter pyIsAlphaAscii).length <
      2 * ((pyStrip s).filter (fun c => !pyIsSpace c)).length then false
  else true

end RestAPICommentCrawler

/-- A harvested comment dictionary, reduced to the fields the claims are
about: the identity key `comment_url` (whose value may be JSON null, modelled
by `none`) and the comment body.  Both crawlers always store the
`comment_url` key in the dictionaries they produce; the repository / PR
metadata fields play no role in any claim and are elided. -/
structure Item where
  url : Option String
  body : List Char
deriving DecidableEq

/-- Embedding of `rotate_token` (`src/comment_crawler.py` lines 37–57, and the
textually identical `src/expert_finder.py` lines 36–56) as a pure function of
the pool size and the current token index: it returns whether a rotation
happened together with the new index.  The Python method can only raise if the
modular index arithmetic did, which it never does; the model is total. -/
def rotate_token (n idx : Nat) : Bool × Nat :=
  if n ≤ 1 then (false, idx) else (true, (idx + 1) % n)

namespace GitHubCommentCrawler

/-- One step of the deduplicating merge performed by the GraphQL crawler's
comment loop (`src/comment_crawler.py` lines 306–338, identity-key portion): a
fetched item whose `comment_url` is already in the seen-set is skipped,
otherwise it is appended and its key recorded. -/
def mergeStep (acc : List Item × List (Option String)) (c : Item) :
    List Item × List (Option String) :=
  if c.url ∈ acc.2 then acc
  else (acc.1 ++ [c], acc.2 ++ [c.url])

/-- The spec's `merge(existingItems, existingKeys, newItems)` contract as the
GraphQL crawler implements it: fold the deduplicating step over the newly
fetched items. -/
def merge (existingItems : List Item) (existingKeys : List (Option String))
    (newItems : List Item) : List Item × List (Option String) :=
  newItems.foldl mergeStep (existingItems, existingKeys)

end GitHubCommentCrawler

namespace RestAPICommentCrawler

/-- Embedding of the REST crawler's merge-on-resume
(`src/restapi_crawler.py` lines 364–369): collect the identity keys of the
existing items into a set, keep only new items whose key is absent from that
set, and append them after the existing items.  Note the filter consults only
the keys of the *existing* items. -/
def restMerge (existingComments newComments : List Item) : List Item :=
  existingComments ++
    newComments.filter fun c => !decide (c.url ∈ existingComments.map Item.url)

end RestAPICommentCrawler

/-- A concrete comment body that passes the validity filter. -/
def okBody : List Char := ['a', 'b', 'c', 'd', 'e', 'f', 'g', 'h', 'i', 'j']

/-- A second concrete comment body that passes the validity filter. -/
def okBody2 : List Char := ['k', 'l', 'm', 'n', 'o', 'p', 'q', 'r', 's', 't']

/-- A raw review comment node as the GraphQL response delivers it (the fields
the loop consults; the `url` value may be null, modelled by `none`). -/
structure RawComment where
  author : List Char
  url : Option String
  body : List Char
deriving DecidableEq

/-- A pull-request node, reduced to the review comments of its review threads
(the metadata fields feed only the elided output-dictionary fields). -/
structure PRNode where
  threads : List (List RawComment)
deriving DecidableEq

/-- Classified shape of one `graphql_query` result as the crawler's loop
inspects it (`src/comment_crawler.py` lines 169–289): a transport error
marker, a well-formed error payload (with the result of the rate-limit
substring test), an unusable/empty payload, or a page of pull requests. -/
inductive GResp
  | netError (kind : String)
  | apiErrors (rateLimited : Bool)
  | noData
  | page (prs : List PRNode) (endCursor : Option String) (hasNext : Bool)
deriving DecidableEq

/-- Observable side effects of the GraphQL collection loop, in program
order. -/
inductive Ev
  | fetch
  | rotate
  | mergeEv
  | saveCursorEv
  | saveItemsEv
  | fallbackRestEv
deriving DecidableEq

/-- How a GraphQL collection run ends: with the output file saved and the
items returned; by returning the REST crawler's result (the in-memory items
were never saved); or — a model artifact — with the response stream exhausted
while the loop still wanted to fetch. -/
inductive GOutcome
  | finished (items : List Item)
  | fellBack (memItems : List Item)
  | outOfResponses (items : List Item)
deriving DecidableEq

/-- Whether a run ended by handing control to the REST crawler. -/
def GOutcome.isFellBack : GOutcome → Bool
  | GOutcome.fellBack _ => true
  | _ => false

/-- In-memory state of the GraphQL collection loop: collected items, the
seen-URL set, the pagination cursor, and the active token index. -/
structure GState where
  items : List Item
  processed : List (Option String)
  after : Option String
  tokenIdx : Nat
deriving DecidableEq

/-- Filter applied to each fetched comment (`src/comment_crawler.py` lines
302–318): authored by the target user (case-insensitive), not yet processed,
and accepted by the validity filter. -/
def acceptComment (username : List Char) (st : GState) (c : RawComment) : Bool :=
  (pyLower c.author == pyLower username) &&
    !decide (c.url ∈ st.processed) &&
    GitHubCommentCrawler.is_valid_comment c.body

/-- Append an accepted comment and record its identity key
(`src/comment_crawler.py` lines 320–334). -/
def pushComment (st : GState) (c : RawComment) : GState :=
  { st with items := st.items ++ [⟨c.url, c.body⟩],
            processed := st.processed ++ [c.url] }

/-- The innermost comment loop of one review thread: the `break` after
reaching the limit exits only this loop (`src/comment_crawler.py` lines
301–341), so the limit is re-checked only after an append. -/
def processThread (username : List Char) (limit : Nat) :
    GState → List RawComment → GState
  | st, [] => st
  | st, c :: rest =>
    if acceptComment username st c then
      if limit ≤ (pushComment st c).items.length then pushComment st c
      else processThread username limit (pushComment st c) rest
    else processThread username limit st rest

/-- The review-thread loop of one pull request; it has no limit break of its
own (`src/comment_crawler.py` line 300). -/
def processPR (username : List Char) (limit : Nat) (st : GState) (pr : PRNode) :
    GState :=
  pr.threads.foldl (processThread username limit) st

/-- The pull-request loop of one fetched page; it has no limit break of its
own (`src/comment_crawler.py` line 292). -/
def processPage (username : List Char) (limit : Nat) (st : GState)
    (prs : List PRNode) : GState :=
  prs.foldl (processPR username limit) st

/-- State update performed by a successful `rotate_token` call. -/
def rotateSt (n : Nat) (st : GState) : GState :=
  { st with tokenIdx := (rotate_token n st.tokenIdx).2 }

/-- Prepend the events of one loop iteration to the remainder of a run. -/
def consEv (evs : List Ev) (p : List Ev × GOutcome) : List Ev × GOutcome :=
  (evs ++ p.1, p.2)

/-- Embedding of the GraphQL fetch loop of `collect_comments`
(`src/comment_crawler.py` lines 120–352 for `use_rest_api=False`,
`get_all_historical=False`; the loop is exited only through the paths
modelled here, and the final file write of lines 402–404 is attached to every
normal exit while the REST-fallback `return` bypasses it).  The response list
models the successive `graphql_query` results.  The rate-limited and other
error payloads behave identically (rotate when possible, otherwise fall back
to REST — for the rate-limited branch via the fall-through to the
no-valid-data check), as do the three recognised transport error markers and
the unrecognised ones (which fall through to the no-valid-data branch). -/
def gLoop (n : Nat) (username : List Char) (limit : Nat) (st : GState) :
    List GResp → List Ev × GOutcome
  | [] =>
    if limit ≤ st.items.length then ([Ev.saveItemsEv], GOutcome.finished st.items)
    else ([], GOutcome.outOfResponses st.items)
  | r :: rest =>
    if limit ≤ st.items.length then ([Ev.saveItemsEv], GOutcome.finished st.items)
    else
      match r with
      | GResp.netError _ =>
        if (rotate_token n st.tokenIdx).1 then
          consEv [Ev.fetch, Ev.rotate] (gLoop n username limit (rotateSt n st) rest)
        else ([Ev.fetch, Ev.fallbackRestEv], GOutcome.fellBack st.items)
      | GResp.apiErrors _ =>
        if (rotate_token n st.tokenIdx).1 then
          consEv [Ev.fetch, Ev.rotate] (gLoop n username limit (rotateSt n st) rest)
        else ([Ev.fetch, Ev.fallbackRestEv], GOutcome.fellBack st.items)
      | GResp.noData =>
        if (rotate_token n st.tokenIdx).1 then
          consEv [Ev.fetch, Ev.rotate] (gLoop n username limit (rotateSt n st) rest)
        else ([Ev.fetch, Ev.fallbackRestEv], GOutcome.fellBack st.items)
      | GResp.page prs endCursor hasNext =>
        if prs = [] then
          if endCursor = none then
            if (rotate_token n st.tokenIdx).1 then
              consEv [Ev.fetch, Ev.rotate]
                (gLoop n username limit (rotateSt n { st with after := endCursor }) rest)
            else ([Ev.fetch, Ev.fallbackRestEv], GOutcome.fellBack st.items)
          else ([Ev.fetch, Ev.saveItemsEv], GOutcome.finished st.items)
        else
          if hasNext = false then
            ([Ev.fetch, Ev.mergeEv, Ev.saveItemsEv],
              GOutcome.finished
                (processPage username limit { st with after := endCursor } prs).items)
          else
            consEv [Ev.fetch, Ev.mergeEv, Ev.saveCursorEv]
              (gLoop n username limit
                (processPage username limit { st with after := endCursor } prs) rest)

/-- The initial in-memory state of `collect_comments` when continuing from a
previously written output file (`src/comment_crawler.py` lines 92–116): the
loaded items and their identity keys (every stored dictionary carries the
`comment_url` key); the state-file cursor is modelled as absent. -/
def gInit (outFile : Option (List Item)) : GState :=
  { items := outFile.getD [],
    processed := (outFile.getD []).map Item.url,
    after := none,
    tokenIdx := 0 }

namespace GitHubCommentCrawler

/-- Embedding of `GitHubCommentCrawler.collect_comments`
(`src/comment_crawler.py` lines 59–407) for `use_rest_api=False`,
`get_all_historical=False` and exception-free responses: load any existing
output file, then run the GraphQL fetch loop. -/
def collect_comments (n : Nat) (username : List Char) (limit : Nat)
    (outFile : Option (List Item)) (resps : List GResp) : List Ev × GOutcome :=
  gLoop n username limit (gInit outFile) resps

end GitHubCommentCrawler

/-- Classified shape of one `search_pull_requests` result as the REST loop
inspects it: an error marker, or the search items of one page, each modelled
by the comments that the per-PR detail fetch (`get_pr_comments`) and the
filtering (`get_comment_with_context`) ultimately yield for it. -/
inductive RSearchResp
  | err (kind : String)
  | ok (prComments : List (List Item))
deriving DecidableEq

/-- The per-item portion of the REST collection loop
(`src/restapi_crawler.py` lines 294–337): the limit is checked before each
search item, then the item's extracted comments are appended wholesale. -/
def restExtendLoop (limit : Nat) : List Item → List (List Item) → List Item
  | items, [] => items
  | items, cs :: rest =>
    if limit ≤ items.length then items
    else restExtendLoop limit (items ++ cs) rest

/-- The REST page loop (`src/restapi_crawler.py` lines 267–351): consume
search responses while below the limit, counting consecutive errors and
aborting at 3, stopping on an empty search page, otherwise extending the
collected list and continuing to the next page only while below the limit
and the page was full. -/
def restLoop (limit perPage : Nat) : List Item → Nat → List RSearchResp → List Item
  | items, _, [] => items
  | items, consecErr, r :: rest =>
    if limit ≤ items.length then items
    else
      match r with
      | RSearchResp.err _ =>
        if 3 ≤ consecErr + 1 then items
        else restLoop limit perPage items (consecErr + 1) rest
      | RSearchResp.ok prs =>
        if prs = [] then items
        else
          if (restExtendLoop limit items prs).length < limit ∧ prs.length = perPage then
            restLoop limit perPage (restExtendLoop limit items prs) 0 rest
          else restExtendLoop limit items prs

namespace RestAPICommentCrawler

/-- Embedding of `RestAPICommentCrawler.collect_comments`
(`src/restapi_crawler.py` lines 227–382) for `continue_crawl=True`,
`get_all_historical=False`: return the existing file's comments outright when
they already meet the limit, otherwise run the page loop, merge with the
existing comments (deduplicating against existing keys only), and truncate to
the limit.  The skip of PRs already present in the existing file (lines
304–309) is not modelled: the runs examined either start with no existing
file or abort before processing any search item. -/
def collect_comments (limit : Nat) (outFile : Option (List Item))
    (resps : List RSearchResp) : List Item :=
  if outFile.isSome ∧ limit ≤ (outFile.getD []).length then outFile.getD []
  else
    if (outFile.getD []) = [] then
      if limit < (restLoop limit 100 [] 0 resps).length then
        (restLoop limit 100 [] 0 resps).take limit
      else restLoop limit 100 [] 0 resps
    else
      if limit < (restMerge (outFile.getD []) (restLoop limit 100 [] 0 resps)).length then
        (restMerge (outFile.getD []) (restLoop limit 100 [] 0 resps)).take limit
      else restMerge (outFile.getD []) (restLoop limit 100 [] 0 resps)

end RestAPICommentCrawler

/-- End-to-end model of a fresh `GitHubCommentCrawler.collect_comments` call:
when the GraphQL loop hands control to the REST crawler
(`return self.rest_crawler.collect_comments(...)`), the whole call returns
the REST crawler's result computed from the same — never yet rewritten —
output file, so the comments the GraphQL loop merged in memory are not passed
along. -/
def collectFull (n : Nat) (username : List Char) (limit : Nat)
    (outFile : Option (List Item)) (gResps : List GResp)
    (restResps : List RSearchResp) : List Item :=
  match GitHubCommentCrawler.collect_comments n username limit outFile gResps with
  | (_, GOutcome.finished items) => items
  | (_, GOutcome.fellBack _) =>
    RestAPICommentCrawler.collect_comments limit outFile restResps
  | (_, GOutcome.outOfResponses items) => items

/-- A JSON value as far as the claims inspect it: a flat string dictionary
(sufficient for `{}` and the `{"error": ...}` results) or any non-dictionary
JSON value, which `response.json()` returns verbatim. -/
inductive PyValue
  | dict (entries : List (String × String))
  | nonDict (tag : String)
deriving DecidableEq

/-- Whether a JSON value is a dictionary. -/
def PyValue.isDict : PyValue → Bool
  | PyValue.dict _ => true
  | PyValue.nonDict _ => false

/-- Outcome of the single `requests.post` performed by `graphql_query`,
classified by the exception handlers of the source (`requests` raises at most
one of these per call; JSON-decoding failures land in the final
catch-everything handler). -/
inductive HttpAttempt
  | success (status : Nat) (body : PyValue)
  | connectionError
  | timeoutError
  | requestError
  | otherException
deriving DecidableEq

namespace GitHubAPI

/-- Embedding of `GitHubAPI.graphql_query` (`src/github_api.py` lines 41–79):
a missing token gives `{}`; a non-200 response gives `{}`; a 200 response
returns the parsed body verbatim; each caught exception class maps to its
error dictionary.  Every control path of the source ends in a `return`, so
the model is a total function. -/
def graphql_query (token : Option String) (att : HttpAttempt) : PyValue :=
  match token with
  | none => PyValue.dict []
  | some _ =>
    match att with
    | HttpAttempt.success status body =>
      if status ≠ 200 then PyValue.dict [] else body
    | HttpAttempt.connectionError => PyValue.dict [("error", "connection_error")]
    | HttpAttempt.timeoutError => PyValue.dict [("error", "timeout_error")]
    | HttpAttempt.requestError => PyValue.dict [("error", "request_error")]
    | HttpAttempt.otherException => PyValue.dict [("error", "general_error")]

end GitHubAPI

/-- Scan of an event trace: `true` iff every durable cursor write is preceded
(in program order) by an in-memory merge of a fetched page. -/
def cursorAfterMergeScan : Bool → List Ev → Bool
  | _, [] => true
  | seen, Ev.saveCursorEv :: rest => seen && cursorAfterMergeScan seen rest
  | _, Ev.mergeEv :: rest => cursorAfterMergeScan true rest
  | seen, _ :: rest => cursorAfterMergeScan seen rest

/-- Scan of an event trace: `true` iff every durable cursor write is preceded
(in program order) by some durable write of the item list. -/
def itemsSavedBeforeCursorScan : Bool → List Ev → Bool
  | _, [] => true
  | saved, Ev.saveCursorEv :: rest => saved && itemsSavedBeforeCursorScan saved rest
  | _, Ev.saveItemsEv :: rest => itemsSavedBeforeCursorScan true rest
  | saved, _ :: rest => itemsSavedBeforeCursorScan saved rest

/-- Username fixture for concrete runs. -/
def uname : List Char := ['u']

/-- A raw comment authored by the fixture user, with the given identity
key and a body that passes the validity filter. -/
def mkRaw (u : String) : RawComment := ⟨['u'], some u, okBody⟩

/-- The item the crawler produces for `mkRaw u`. -/
def mkItem (u : String) : Item := ⟨some u, okBody⟩

/-- A pull request with a single review thread holding the given comments. -/
def mkPR (cs : List RawComment) : PRNode := ⟨[cs]⟩

/-- ASCII letters are never whitespace. -/
theorem alpha_not_space (c : Char) (h : pyIsAlphaAscii c = true) : pyIsSpace c = false := by
  simp only [pyIsAlphaAscii, decide_eq_true_eq] at h
  simp only [pyIsSpace, decide_eq_false_iff_not]
  omega

/-- Decomposition of a string around its stripped core: the discarded leading
and trailing parts consist of whitespace only. -/
theorem pyStrip_decomp (s : List Char) :
    ∃ a b, s = a ++ pyStrip s ++ b ∧ (∀ c ∈ a, pyIsSpace c = true) ∧
      (∀ c ∈ b, pyIsSpace c = true) := by
  refine ⟨s.takeWhile pyIsSpace,
    ((s.dropWhile pyIsSpace).reverse.takeWhile pyIsSpace).reverse, ?_, ?_, ?_⟩
  · simp only [pyStrip]
    rw [List.append_assoc]
    have h3 := List.takeWhile_append_dropWhile
      (p := pyIsSpace) (l := (s.dropWhile pyIsSpace).reverse)
    have h4 := congrArg List.reverse h3
    simp only [List.reverse_append, List.reverse_reverse] at h4
    rw [h4, List.takeWhile_append_dropWhile]
  · intro c hc
    exact List.mem_takeWhile_imp hc
  · intro c hc
    rw [List.mem_reverse] at hc
    exact List.mem_takeWhile_imp hc

/-- Filters that reject whitespace see the same characters in a string and in
its stripped form. -/
theorem filter_pyStrip (q : Char → Bool) (hq : ∀ c, pyIsSpace c = true → q c = false)
    (s : List Char) : (pyStrip s).filter q = s.filter q := by
  obtain ⟨a, b, hs, ha, hb⟩ := pyStrip_decomp s
  conv_rhs => rw [hs]
  have hfa : a.filter q = [] := by
    rw [List.filter_eq_nil_iff]
    intro c hc
    simp [hq c (ha c hc)]
  have hfb : b.filter q = [] := by
    rw [List.filter_eq_nil_iff]
    intro c hc
    simp [hq c (hb c hc)]
  simp [List.filter_append, hfa, hfb]

/-- The head of a non-empty `dropWhile` result falsifies the predicate. -/
theorem dropWhile_head_false (p : Char → Bool) :
    ∀ (l : List Char) (c : Char) (t : List Char), l.dropWhile p = c :: t → p c = false := by
  intro l
  induction l with
  | nil => intro c t h; simp [List.dropWhile] at h
  | cons a l ih =>
    intro c t h
    by_cases hp : p a
    · rw [List.dropWhile_cons_of_pos hp] at h
      exact ih c t h
    · rw [List.dropWhile_cons_of_neg hp] at h
      cases h
      exact Bool.of_not_eq_true hp

/-- A non-empty stripped string contains at least one non-whitespace
character. -/
theorem pyStrip_nonspace_pos (s : List Char) (h : pyStrip s ≠ []) :
    0 < ((pyStrip s).filter (fun c => !pyIsSpace c)).length := by
  unfold pyStrip at *
  rcases h2 : (s.dropWhile pyIsSpace).reverse.dropWhile pyIsSpace with _ | ⟨c, t⟩
  · rw [h2] at h; simp at h
  · have hc : pyIsSpace c = false := dropWhile_head_false pyIsSpace _ c t h2
    simp only [List.reverse_cons, List.filter_append, List.length_append]
    simp [hc]

/-- Claim C10: the default validity filter is a pure predicate returning
`false` exactly on inputs that are blank/whitespace-only, have stripped length
below 10, or have fewer than 40% ASCII-alphabetic characters among their
non-whitespace characters, and `true` on all other inputs; both the GraphQL
and the REST crawler implement the identical predicate. -/
theorem C10_is_valid_comment_spec :
    (∀ s, GitHubCommentCrawler.is_valid_comment s = RestAPICommentCrawler.is_valid_comment s) ∧
    (∀ s : List Char,
      GitHubCommentCrawler.is_valid_comment s = true ↔
        (10 ≤ (pyStrip s).length ∧
          2 * (s.filter (fun c => !pyIsSpace c)).length ≤
            5 * (s.filter pyIsAlphaAscii).length)) := by
  constructor
  · intro s; rfl
  · intro s
    have hns := filter_pyStrip (fun c => !pyIsSpace c) (by intro c h; simp [h]) s
    have hal := filter_pyStrip pyIsAlphaAscii
      (by intro c h
          by_cases ha : pyIsAlphaAscii c = true
          · rw [alpha_not_space c ha] at h; exact absurd h (by simp)
          · exact Bool.of_not_eq_true ha) s
    rw [← hns, ← hal]
    unfold GitHubCommentCrawler.is_valid_comment
    split_ifs with h1 h2 h3 h4
    · constructor
      · intro h; exact absurd h (by simp)
      · rintro ⟨hlen, _⟩
        rcases h1 with h1 | h1
        · rw [h1] at hlen; simp [pyStrip, List.dropWhile] at hlen
        · rw [h1] at hlen; simp at hlen
    · constructor
      · intro h; exact absurd h (by simp)
      · rintro ⟨hlen, _⟩; omega
    · exfalso
      have : pyStrip s ≠ [] := by
        intro hnil
        rw [hnil] at h2; simp at h2
      have := pyStrip_nonspace_pos s this
      omega
    · constructor
      · intro h; exact absurd h (by simp)
      · rintro ⟨_, hratio⟩; omega
    · constructor
      · intro _; exact ⟨by omega, by omega⟩
      · intro _; rfl

/-- Structure of the GraphQL merge: existing items form an unchanged initial
segment, the appended items are a subsequence of the new items in fetch order,
every appended item's key was absent from the existing keys, and the key set
only grows. -/
theorem merge_structure (newItems : List Item) :
    ∀ (ex : List Item) (keys : List (Option String)),
      ∃ app : List Item,
        (GitHubCommentCrawler.merge ex keys newItems).1 = ex ++ app ∧
        app.Sublist newItems ∧
        (∀ c ∈ app, c.url ∉ keys) ∧
        (∀ k ∈ keys, k ∈ (GitHubCommentCrawler.merge ex keys newItems).2) := by
  induction newItems with
  | nil =>
    intro ex keys
    exact ⟨[], by simp [GitHubCommentCrawler.merge], List.nil_sublist _, by simp,
      by simp [GitHubCommentCrawler.merge]⟩
  | cons c rest ih =>
    intro ex keys
    by_cases h : c.url ∈ keys
    · have hstep : GitHubCommentCrawler.merge ex keys (c :: rest) =
          GitHubCommentCrawler.merge ex keys rest := by
        simp [GitHubCommentCrawler.merge, GitHubCommentCrawler.mergeStep, h]
      obtain ⟨app, h1, h2, h3, h4⟩ := ih ex keys
      exact ⟨app, by rw [hstep]; exact h1, h2.cons c, h3, by rw [hstep]; exact h4⟩
    · have hstep : GitHubCommentCrawler.merge ex keys (c :: rest) =
          GitHubCommentCrawler.merge (ex ++ [c]) (keys ++ [c.url]) rest := by
        simp [GitHubCommentCrawler.merge, GitHubCommentCrawler.mergeStep, h]
      obtain ⟨app, h1, h2, h3, h4⟩ := ih (ex ++ [c]) (keys ++ [c.url])
      refine ⟨c :: app, ?_, h2.cons₂ c, ?_, ?_⟩
      · rw [hstep, h1, List.append_assoc]
        rfl
      · intro x hx
        rcases List.mem_cons.1 hx with hx | hx
        · subst hx; exact h
        · intro hk
          exact h3 x hx (List.mem_append_left _ hk)
      · intro k hk
        rw [hstep]
        exact h4 k (List.mem_append_left _ hk)

/-- The GraphQL merge never produces two items with the same identity key,
provided the existing items' keys are covered by the key set and are pairwise
distinct. -/
theorem merge_nodup (newItems : List Item) :
    ∀ (ex : List Item) (keys : List (Option String)),
      (∀ c ∈ ex, c.url ∈ keys) → (ex.map Item.url).Nodup →
      ((GitHubCommentCrawler.merge ex keys newItems).1.map Item.url).Nodup := by
  induction newItems with
  | nil =>
    intro ex keys _ hnd
    simpa [GitHubCommentCrawler.merge] using hnd
  | cons c rest ih =>
    intro ex keys hcov hnd
    by_cases h : c.url ∈ keys
    · have hstep : GitHubCommentCrawler.merge ex keys (c :: rest) =
          GitHubCommentCrawler.merge ex keys rest := by
        simp [GitHubCommentCrawler.merge, GitHubCommentCrawler.mergeStep, h]
      rw [hstep]
      exact ih ex keys hcov hnd
    · have hcnot : c.url ∉ ex.map Item.url := by
        intro hmem
        obtain ⟨x, hx, hxe⟩ := List.mem_map.1 hmem
        exact h (hxe ▸ hcov x hx)
      have hnd2 : ((ex ++ [c]).map Item.url).Nodup := by
        rw [List.map_append]
        refine List.Nodup.append hnd (by simp) ?_
        intro a ha hb
        simp only [List.map_cons, List.map_nil, List.mem_singleton] at hb
        exact hcnot (hb ▸ ha)
      have hcov2 : ∀ x ∈ ex ++ [c], x.url ∈ keys ++ [c.url] := by
        intro x hx
        rcases List.mem_append.1 hx with hx | hx
        · exact List.mem_append_left _ (hcov x hx)
        · simp only [List.mem_singleton] at hx
          subst hx
          exact List.mem_append_right _ (by simp)
      have hstep : GitHubCommentCrawler.merge ex keys (c :: rest) =
          GitHubCommentCrawler.merge (ex ++ [c]) (keys ++ [c.url]) rest := by
        simp [GitHubCommentCrawler.merge, GitHubCommentCrawler.mergeStep, h]
      rw [hstep]
      exact ih _ _ hcov2 hnd2

/-- Structure of the REST merge: existing items unchanged up front, appended
new items are a fetch-order subsequence whose keys avoid the existing keys,
and the length never decreases. -/
theorem restMerge_structure (ex newItems : List Item) :
    ∃ app : List Item,
      RestAPICommentCrawler.restMerge ex newItems = ex ++ app ∧
      app.Sublist newItems ∧
      (∀ c ∈ app, c.url ∉ ex.map Item.url) ∧
      ex.length ≤ (RestAPICommentCrawler.restMerge ex newItems).length := by
  refine ⟨_, rfl, newItems.filter_sublist, ?_, ?_⟩
  · intro c hc
    have := List.of_mem_filter hc
    simpa using this
  · simp [RestAPICommentCrawler.restMerge]

/-- The REST merge result is duplicate-key-free when both the existing items
and the newly fetched items are separately duplicate-key-free. -/
theorem restMerge_nodup (ex newItems : List Item)
    (hex : (ex.map Item.url).Nodup) (hnew : (newItems.map Item.url).Nodup) :
    ((RestAPICommentCrawler.restMerge ex newItems).map Item.url).Nodup := by
  rw [RestAPICommentCrawler.restMerge, List.map_append]
  refine List.Nodup.append hex (hnew.sublist ((newItems.filter_sublist).map Item.url)) ?_
  intro a ha hb
  obtain ⟨x, hx, hxe⟩ := List.mem_map.1 hb
  have := List.of_mem_filter hx
  simp only [Bool.not_eq_true', decide_eq_false_iff_not] at this
  exact this (hxe ▸ ha)

/-- Claim C1, counterexample: the REST merge (`src/restapi_crawler.py` lines
364–369) deduplicates only against the existing items, so two newly fetched
items sharing the identity key `some "u"` both survive into the final result,
which therefore contains two items with the same identity key. -/
theorem C1_counterexample :
    ¬ (((RestAPICommentCrawler.restMerge []
      [⟨some "u", okBody⟩, ⟨some "u", okBody2⟩]).map Item.url).Nodup) := by
  decide

/-- Claim C1 as amended: both merges drop new items whose identity key is
already present among the existing keys, preserve the order of existing items,
append the surviving new items in fetch order, and never decrease the item
count; the GraphQL incremental merge never produces two items with the same
identity key (given consistent, duplicate-free existing state), while the REST
merge guarantees this only when the newly fetched items are themselves
duplicate-key-free, since it deduplicates only against existing items. -/
theorem C1_merge_amended :
    (∀ (ex : List Item) (keys : List (Option String)) (newItems : List Item),
      ∃ app : List Item,
        (GitHubCommentCrawler.merge ex keys newItems).1 = ex ++ app ∧
        app.Sublist newItems ∧
        (∀ c ∈ app, c.url ∉ keys) ∧
        ex.length ≤ (GitHubCommentCrawler.merge ex keys newItems).1.length ∧
        (∀ k ∈ keys, k ∈ (GitHubCommentCrawler.merge ex keys newItems).2)) ∧
    (∀ (ex : List Item) (keys : List (Option String)) (newItems : List Item),
      (∀ c ∈ ex, c.url ∈ keys) → (ex.map Item.url).Nodup →
      ((GitHubCommentCrawler.merge ex keys newItems).1.map Item.url).Nodup) ∧
    (∀ ex newItems : List Item,
      ∃ app : List Item,
        RestAPICommentCrawler.restMerge ex newItems = ex ++ app ∧
        app.Sublist newItems ∧
        (∀ c ∈ app, c.url ∉ ex.map Item.url) ∧
        ex.length ≤ (RestAPICommentCrawler.restMerge ex newItems).length) ∧
    (∀ ex newItems : List Item,
      (ex.map Item.url).Nodup → (newItems.map Item.url).Nodup →
      ((RestAPICommentCrawler.restMerge ex newItems).map Item.url).Nodup) := by
  refine ⟨?_, fun ex keys newItems => merge_nodup newItems ex keys,
    restMerge_structure, restMerge_nodup⟩
  · intro ex keys newItems
    obtain ⟨app, h1, h2, h3, h4⟩ := merge_structure newItems ex keys
    exact ⟨app, h1, h2, h3, by rw [h1]; simp, h4⟩

/-- Claim C1 witness: the amended merge theorem applied at concrete inputs,
with every hypothesis discharged by evaluation. -/
theorem C1_witness :
    (((GitHubCommentCrawler.merge [⟨some "u", okBody⟩] [some "u"]
      [⟨some "v", okBody2⟩]).1.map Item.url).Nodup) ∧
    (((RestAPICommentCrawler.restMerge [⟨some "u", okBody⟩]
      [⟨some "v", okBody2⟩]).map Item.url).Nodup) :=
  ⟨C1_merge_amended.2.1 [⟨some "u", okBody⟩] [some "u"] [⟨some "v", okBody2⟩]
      (by decide) (by decide),
    C1_merge_amended.2.2.2 [⟨some "u", okBody⟩] [⟨some "v", okBody2⟩]
      (by decide) (by decide)⟩

/-- Claim C6: `rotate_token` advances the index to the next credential modulo
the pool size and reports whether a different credential became active: it
returns `false` (leaving the index unchanged) exactly when the pool size is at
most 1, and otherwise returns `true` with the new index `(idx + 1) % n`, which
stays within the pool bounds and differs from the old index.  The model is a
total function, mirroring that the Python method cannot raise. -/
theorem C6_rotate_token (n idx : Nat) (hidx : idx < n) :
    (n ≤ 1 → rotate_token n idx = (false, idx)) ∧
    (2 ≤ n →
      (rotate_token n idx).1 = true ∧
      (rotate_token n idx).2 = (idx + 1) % n ∧
      (rotate_token n idx).2 < n ∧
      (rotate_token n idx).2 ≠ idx) := by
  constructor
  · intro h
    simp [rotate_token, h]
  · intro h
    have hn : ¬ n ≤ 1 := by omega
    refine ⟨by simp [rotate_token, hn], by simp [rotate_token, hn], ?_, ?_⟩
    · simp only [rotate_token, if_neg hn]
      exact Nat.mod_lt _ (by omega)
    · simp only [rotate_token, if_neg hn]
      rcases Nat.lt_or_ge (idx + 1) n with hlt | hge
      · rw [Nat.mod_eq_of_lt hlt]
        omega
      · have hne : idx + 1 = n := by omega
        rw [hne, Nat.mod_self]
        omega

/-- Claim C6 witness: the rotation theorem applied to a pool of 3 credentials
with active index 1. -/
theorem C6_witness :
    1 < 3 ∧
    ((3 ≤ 1 → rotate_token 3 1 = (false, 1)) ∧
      (2 ≤ 3 →
        (rotate_token 3 1).1 = true ∧
        (rotate_token 3 1).2 = (1 + 1) % 3 ∧
        (rotate_token 3 1).2 < 3 ∧
        (rotate_token 3 1).2 ≠ 1)) :=
  ⟨by decide, C6_rotate_token 3 1 (by decide)⟩

/-- Claim C2, evaluation at the failing input: with `limit = 5` and two pages
of 3 acceptable comments each, where the second page spreads its comments over
3 distinct pull requests, the GraphQL crawler returns 6 items — the `break`
after reaching the limit exits only the innermost comment loop, so every
later thread still appends one comment before breaking.  The run makes
exactly the 2 fetch calls the claim predicts but exceeds the limit. -/
theorem C2_limit_overshoot_eval :
    GitHubCommentCrawler.collect_comments 1 uname 5 none
      [GResp.page [mkPR [mkRaw "u1", mkRaw "u2", mkRaw "u3"]] (some "p1") true,
       GResp.page [mkPR [mkRaw "u4"], mkPR [mkRaw "u5"], mkPR [mkRaw "u6"]]
         (some "p2") true] =
      ([Ev.fetch, Ev.mergeEv, Ev.saveCursorEv, Ev.fetch, Ev.mergeEv,
        Ev.saveCursorEv, Ev.saveItemsEv],
       GOutcome.finished [mkItem "u1", mkItem "u2", mkItem "u3", mkItem "u4",
         mkItem "u5", mkItem "u6"]) ∧
    ([Ev.fetch, Ev.mergeEv, Ev.saveCursorEv, Ev.fetch, Ev.mergeEv,
      Ev.saveCursorEv, Ev.saveItemsEv].count Ev.fetch = 2) ∧
    ([mkItem "u1", mkItem "u2", mkItem "u3", mkItem "u4", mkItem "u5",
      mkItem "u6"].length = 6) :=
  ⟨by decide, by decide, by decide⟩

/-- Claim C3, counterexample: a well-formed non-rate-limit error payload (the
model of a fatal query error) on the very first fetch with a 2-credential pool
does not terminate the run: the crawler rotates credentials once and retries,
then completes normally — not an immediate termination with zero rotation
attempts. -/
theorem C3_counterexample :
    GitHubCommentCrawler.collect_comments 2 uname 5 none
      [GResp.apiErrors false, GResp.page [mkPR [mkRaw "u1"]] (some "p1") false] =
      ([Ev.fetch, Ev.rotate, Ev.fetch, Ev.mergeEv, Ev.saveItemsEv],
        GOutcome.finished [mkItem "u1"]) ∧
    ([Ev.fetch, Ev.rotate, Ev.fetch, Ev.mergeEv, Ev.saveItemsEv].count Ev.rotate = 1) :=
  ⟨by decide, by decide⟩

/-- Claim C3 as amended: a well-formed error payload that is not rate-limit
related is retried exactly like any other error — the crawler rotates
credentials whenever the pool has at least 2 entries, and with a single
credential it hands control to the REST fallback; it never aborts the target
outright while the pool offers a rotation. -/
theorem C3_fatal_error_is_retried :
    ∀ (username : List Char) (limit : Nat) (st : GState) (rest : List GResp),
      st.items.length < limit →
      (∀ n, 2 ≤ n →
        gLoop n username limit st (GResp.apiErrors false :: rest) =
          consEv [Ev.fetch, Ev.rotate] (gLoop n username limit (rotateSt n st) rest)) ∧
      (gLoop 1 username limit st (GResp.apiErrors false :: rest) =
        ([Ev.fetch, Ev.fallbackRestEv], GOutcome.fellBack st.items)) := by
  intro username limit st rest hlt
  have h1 : ¬ limit ≤ st.items.length := by omega
  constructor
  · intro n hn
    have h2 : (rotate_token n st.tokenIdx).1 = true := by
      unfold rotate_token
      rw [if_neg (by omega)]
    simp [gLoop, h1, h2]
  · have h2 : (rotate_token 1 st.tokenIdx).1 = false := by
      unfold rotate_token
      rw [if_pos (by omega)]
    simp [gLoop, h1, h2]

/-- Claim C3 witness: the amended theorem applied to the initial state with a
2-credential pool and then a 1-credential pool. -/
theorem C3_witness :
    (gInit none).items.length < 5 ∧
    (gLoop 2 uname 5 (gInit none) [GResp.apiErrors false] =
      consEv [Ev.fetch, Ev.rotate] (gLoop 2 uname 5 (rotateSt 2 (gInit none)) [])) ∧
    (gLoop 1 uname 5 (gInit none) [GResp.apiErrors false] =
      ([Ev.fetch, Ev.fallbackRestEv], GOutcome.fellBack (gInit none).items)) :=
  ⟨by decide,
    (C3_fatal_error_is_retried uname 5 (gInit none) [] (by decide)).1 2 (by decide),
    (C3_fatal_error_is_retried uname 5 (gInit none) [] (by decide)).2⟩

/-- Claim C4, counterexample: for the failure sequence
`[RateLimited, RateLimited, TransientNetworkError]` with a 2-credential pool,
the crawler rotates on every failure — three rotations, the third wrapping —
and then succeeds; it never switches to the fallback protocol, because the
fallback is reached only when `rotate_token` reports an unrotatable pool. -/
theorem C4_counterexample :
    GitHubCommentCrawler.collect_comments 2 uname 5 none
      [GResp.apiErrors true, GResp.apiErrors true,
        GResp.netError "connection_error",
        GResp.page [mkPR [mkRaw "u1"]] (some "p1") false] =
      ([Ev.fetch, Ev.rotate, Ev.fetch, Ev.rotate, Ev.fetch, Ev.rotate,
        Ev.fetch, Ev.mergeEv, Ev.saveItemsEv], GOutcome.finished [mkItem "u1"]) ∧
    ([Ev.fetch, Ev.rotate, Ev.fetch, Ev.rotate, Ev.fetch, Ev.rotate,
      Ev.fetch, Ev.mergeEv, Ev.saveItemsEv].count Ev.rotate = 3) ∧
    Ev.fallbackRestEv ∉
      [Ev.fetch, Ev.rotate, Ev.fetch, Ev.rotate, Ev.fetch, Ev.rotate,
        Ev.fetch, Ev.mergeEv, Ev.saveItemsEv] :=
  ⟨by decide, by decide, by decide⟩

/-- Claim C5, counterexample: in a two-page run the cursor is durably written
(state file) after the first page although the item list has not been durably
written at all at that point — the output file is only written at
termination, so the durable cursor runs ahead of the durable item state. -/
theorem C5_counterexample :
    itemsSavedBeforeCursorScan false
      (GitHubCommentCrawler.collect_comments 1 uname 5 none
        [GResp.page [mkPR [mkRaw "u1"]] (some "p1") true,
         GResp.page [mkPR [mkRaw "u2"]] (some "p2") false]).1 = false := by
  decide

/-- Claim C7, counterexample: an empty page received on a *subsequent* fetch
(a cursor from page one is present) whose response carries a null end-cursor
— the shape the remote source actually produces for an exhausted result — is
not treated as source-exhausted: the crawler rotates credentials and
retries. -/
theorem C7_counterexample :
    GitHubCommentCrawler.collect_comments 2 uname 5 none
      [GResp.page [mkPR [mkRaw "u1"]] (some "c1") true,
        GResp.page [] none true,
        GResp.page [] (some "c2") true] =
      ([Ev.fetch, Ev.mergeEv, Ev.saveCursorEv, Ev.fetch, Ev.rotate,
        Ev.fetch, Ev.saveItemsEv], GOutcome.finished [mkItem "u1"]) ∧
    ([Ev.fetch, Ev.mergeEv, Ev.saveCursorEv, Ev.fetch, Ev.rotate,
      Ev.fetch, Ev.saveItemsEv].count Ev.rotate = 1) :=
  ⟨by decide, by decide⟩

/-- Claim C7 as amended: an empty page is classified by the end-cursor of the
empty response itself, not by whether a cursor existed before the fetch: a
null end-cursor makes the page suspicious (rotate when the pool allows it,
otherwise fall back to REST), while a non-null end-cursor terminates the loop
as source-exhausted — on the first fetch as well as on any later one. -/
theorem C7_empty_page_classified_by_cursor :
    ∀ (n : Nat) (username : List Char) (limit : Nat) (st : GState)
      (c : String) (hasNext : Bool) (rest : List GResp),
      st.items.length < limit →
      (gLoop n username limit st (GResp.page [] (some c) hasNext :: rest) =
        ([Ev.fetch, Ev.saveItemsEv], GOutcome.finished st.items)) ∧
      (2 ≤ n →
        gLoop n username limit st (GResp.page [] none hasNext :: rest) =
          consEv [Ev.fetch, Ev.rotate]
            (gLoop n username limit (rotateSt n { st with after := none }) rest)) ∧
      (gLoop 1 username limit st (GResp.page [] none hasNext :: rest) =
        ([Ev.fetch, Ev.fallbackRestEv], GOutcome.fellBack st.items)) := by
  intro n username limit st c hasNext rest hlt
  have h1 : ¬ limit ≤ st.items.length := by omega
  refine ⟨?_, ?_, ?_⟩
  · simp [gLoop, h1]
  · intro hn
    have h2 : (rotate_token n st.tokenIdx).1 = true := by
      unfold rotate_token
      rw [if_neg (by omega)]
    simp [gLoop, h1, h2]
  · have h2 : (rotate_token 1 st.tokenIdx).1 = false := by
      unfold rotate_token
      rw [if_pos (by omega)]
    simp [gLoop, h1, h2]

/-- Claim C7 witness: the amended classification applied to the initial state
with pool sizes 2 and 1 and the cursor value `c2`. -/
theorem C7_witness :
    (gInit none).items.length < 5 ∧
    (gLoop 2 uname 5 (gInit none) [GResp.page [] (some "c2") true] =
      ([Ev.fetch, Ev.saveItemsEv], GOutcome.finished (gInit none).items)) ∧
    (gLoop 2 uname 5 (gInit none) [GResp.page [] none true] =
      consEv [Ev.fetch, Ev.rotate]
        (gLoop 2 uname 5 (rotateSt 2 { gInit none with after := none }) [])) :=
  ⟨by decide,
    (C7_empty_page_classified_by_cursor 2 uname 5 (gInit none) "c2" true [] (by decide)).1,
    (C7_empty_page_classified_by_cursor 2 uname 5 (gInit none) "c2" true [] (by decide)).2.1
      (by decide)⟩

/-- Claim C8, counterexample: a run that merges one comment from page one and
then exhausts its single credential hands control to the REST crawler, whose
own three consecutive failures make it return the empty list — the caller
receives `[]` with no termination-reason marker of any kind, losing the
already-merged item (the GraphQL loop never wrote the output file before
falling back). -/
theorem C8_counterexample :
    collectFull 1 uname 5 none
      [GResp.page [mkPR [mkRaw "u1"]] (some "c1") true,
        GResp.netError "connection_error"]
      [RSearchResp.err "connection_error", RSearchResp.err "connection_error",
        RSearchResp.err "connection_error"] = [] ∧
    (GitHubCommentCrawler.collect_comments 1 uname 5 none
      [GResp.page [mkPR [mkRaw "u1"]] (some "c1") true,
        GResp.netError "connection_error"]).2 = GOutcome.fellBack [mkItem "u1"] :=
  ⟨by decide, by decide⟩

/-- Claim C8 as amended: on credential exhaustion the engine does not raise —
with a single credential a transport error makes the GraphQL loop hand its
(unsaved) in-memory items to the REST fallback and return that crawler's
plain item list; no termination reason of any kind accompanies the returned
list, and the REST crawler's own abort path likewise returns a bare (possibly
empty) list. -/
theorem C8_exhaustion_returns_plain_list :
    ∀ (username : List Char) (limit : Nat) (st : GState) (rest : List GResp),
      st.items.length < limit →
      (gLoop 1 username limit st (GResp.netError "connection_error" :: rest) =
        ([Ev.fetch, Ev.fallbackRestEv], GOutcome.fellBack st.items)) ∧
      (RestAPICommentCrawler.collect_comments 5 none
        [RSearchResp.err "e", RSearchResp.err "e", RSearchResp.err "e"] = []) := by
  intro username limit st rest hlt
  have h1 : ¬ limit ≤ st.items.length := by omega
  constructor
  · have h2 : (rotate_token 1 st.tokenIdx).1 = false := by
      unfold rotate_token
      rw [if_pos (by omega)]
    simp [gLoop, h1, h2]
  · decide

/-- Claim C8 witness: the amended theorem applied to the initial state. -/
theorem C8_witness :
    (gInit none).items.length < 5 ∧
    (gLoop 1 uname 5 (gInit none) [GResp.netError "connection_error"] =
      ([Ev.fetch, Ev.fallbackRestEv], GOutcome.fellBack (gInit none).items)) :=
  ⟨by decide,
    (C8_exhaustion_returns_plain_list uname 5 (gInit none) [] (by decide)).1⟩

/-- Claim C9, counterexample: a 200 response whose parsed JSON body is not a
dictionary (e.g. an array) is returned verbatim by `graphql_query`, so the
function does not always return a dictionary. -/
theorem C9_counterexample :
    (GitHubAPI.graphql_query (some "t")
      (HttpAttempt.success 200 (PyValue.nonDict "array"))).isDict = false := by
  decide

/-- Claim C9 as amended: `graphql_query` is total and never propagates an
exception: a missing token yields `{}`, a non-200 status yields `{}`, each
caught exception class yields a dictionary whose `error` entry names the
class, and a 200 response yields the parsed body verbatim (which is the one
case where the result need not be a dictionary). -/
theorem C9_graphql_query_total :
    (∀ att, GitHubAPI.graphql_query none att = PyValue.dict []) ∧
    (∀ t status body,
      GitHubAPI.graphql_query (some t) (HttpAttempt.success status body) =
        if status = 200 then body else PyValue.dict []) ∧
    (∀ t,
      GitHubAPI.graphql_query (some t) HttpAttempt.connectionError =
        PyValue.dict [("error", "connection_error")] ∧
      GitHubAPI.graphql_query (some t) HttpAttempt.timeoutError =
        PyValue.dict [("error", "timeout_error")] ∧
      GitHubAPI.graphql_query (some t) HttpAttempt.requestError =
        PyValue.dict [("error", "request_error")] ∧
      GitHubAPI.graphql_query (some t) HttpAttempt.otherException =
        PyValue.dict [("error", "general_error")]) := by
  refine ⟨?_, ?_, ?_⟩
  · intro att
    cases att <;> rfl
  · intro t status body
    by_cases h : status = 200
    · subst h
      simp [GitHubAPI.graphql_query]
    · simp [GitHubAPI.graphql_query, h]
  · intro t
    exact ⟨rfl, rfl, rfl, rfl⟩

/-- Prepending fallback-free events preserves fallback-freedom of a run
tail. -/
theorem consEv_fallback_free (evs : List Ev) (p : List Ev × GOutcome)
    (hevs : Ev.fallbackRestEv ∉ evs)
    (hp : Ev.fallbackRestEv ∉ p.1 ∧ p.2.isFellBack = false) :
    Ev.fallbackRestEv ∉ (consEv evs p).1 ∧ (consEv evs p).2.isFellBack = false := by
  constructor
  · simp only [consEv, List.mem_append]
    rintro (hc | hc)
    · exact hevs hc
    · exact hp.1 hc
  · exact hp.2

/-- Claim C4 as amended: while the credential pool offers a rotation (size at
least 2), the crawler answers every failure by rotating — it never switches
to the fallback protocol, in no run and at no point; the fallback is reached
only when `rotate_token` reports an unrotatable pool. -/
theorem C4_no_fallback_while_rotation_available :
    ∀ (resps : List GResp) (n : Nat) (username : List Char) (limit : Nat)
      (st : GState),
      2 ≤ n →
      Ev.fallbackRestEv ∉ (gLoop n username limit st resps).1 ∧
      (gLoop n username limit st resps).2.isFellBack = false := by
  intro resps
  induction resps with
  | nil =>
    intro n username limit st hn
    by_cases h : limit ≤ st.items.length
    · rw [show gLoop n username limit st [] =
          ([Ev.saveItemsEv], GOutcome.finished st.items) from by simp [gLoop, h]]
      exact ⟨by simp, rfl⟩
    · rw [show gLoop n username limit st [] =
          ([], GOutcome.outOfResponses st.items) from by simp [gLoop, h]]
      exact ⟨by simp, rfl⟩
  | cons r rest ih =>
    intro n username limit st hn
    have hrot : ∀ idx, (rotate_token n idx).1 = true := by
      intro idx
      unfold rotate_token
      rw [if_neg (by omega)]
    by_cases h : limit ≤ st.items.length
    · rw [show gLoop n username limit st (r :: rest) =
          ([Ev.saveItemsEv], GOutcome.finished st.items) from by
            cases r <;> simp [gLoop, h]]
      exact ⟨by simp, rfl⟩
    · cases r with
      | netError kind =>
        rw [show gLoop n username limit st (GResp.netError kind :: rest) =
            consEv [Ev.fetch, Ev.rotate]
              (gLoop n username limit (rotateSt n st) rest) from by
              simp [gLoop, h, hrot]]
        exact consEv_fallback_free _ _ (by decide)
          (ih n username limit (rotateSt n st) hn)
      | apiErrors rateLimited =>
        rw [show gLoop n username limit st (GResp.apiErrors rateLimited :: rest) =
            consEv [Ev.fetch, Ev.rotate]
              (gLoop n username limit (rotateSt n st) rest) from by
              simp [gLoop, h, hrot]]
        exact consEv_fallback_free _ _ (by decide)
          (ih n username limit (rotateSt n st) hn)
      | noData =>
        rw [show gLoop n username limit st (GResp.noData :: rest) =
            consEv [Ev.fetch, Ev.rotate]
              (gLoop n username limit (rotateSt n st) rest) from by
              simp [gLoop, h, hrot]]
        exact consEv_fallback_free _ _ (by decide)
          (ih n username limit (rotateSt n st) hn)
      | page prs cur hasNext =>
        by_cases hp : prs = []
        · subst hp
          by_cases hc : cur = none
          · subst hc
            rw [show gLoop n username limit st (GResp.page [] none hasNext :: rest) =
                consEv [Ev.fetch, Ev.rotate]
                  (gLoop n username limit (rotateSt n { st with after := none }) rest)
                from by simp [gLoop, h, hrot]]
            exact consEv_fallback_free _ _ (by decide)
              (ih n username limit (rotateSt n { st with after := none }) hn)
          · rw [show gLoop n username limit st (GResp.page [] cur hasNext :: rest) =
                ([Ev.fetch, Ev.saveItemsEv], GOutcome.finished st.items) from by
                  simp [gLoop, h, hc]]
            exact ⟨by simp, rfl⟩
        · by_cases hh : hasNext = false
          · rw [show gLoop n username limit st (GResp.page prs cur hasNext :: rest) =
                ([Ev.fetch, Ev.mergeEv, Ev.saveItemsEv],
                  GOutcome.finished
                    (processPage username limit { st with after := cur } prs).items)
                from by simp [gLoop, h, hp, hh]]
            exact ⟨by simp, rfl⟩
          · rw [show gLoop n username limit st (GResp.page prs cur hasNext :: rest) =
                consEv [Ev.fetch, Ev.mergeEv, Ev.saveCursorEv]
                  (gLoop n username limit
                    (processPage username limit { st with after := cur } prs) rest)
                from by simp [gLoop, h, hp, hh]]
            exact consEv_fallback_free _ _ (by decide)
              (ih n username limit
                (processPage username limit { st with after := cur } prs) hn)

/-- Claim C4 witness: the amended no-protocol-switch theorem applied to a
concrete run with a 2-credential pool. -/
theorem C4_witness :
    2 ≤ 2 ∧
    (Ev.fallbackRestEv ∉ (gLoop 2 uname 5 (gInit none) [GResp.apiErrors true]).1 ∧
      (gLoop 2 uname 5 (gInit none) [GResp.apiErrors true]).2.isFellBack = false) :=
  ⟨by decide,
    C4_no_fallback_while_rotation_available [GResp.apiErrors true] 2 uname 5
      (gInit none) (by decide)⟩

/-- Claim C5 as amended: in every run, whatever the pool size, responses and
state, the durable cursor write of the state file happens only downstream of
the in-memory merge of a fetched page (the merge immediately precedes every
cursor checkpoint); the durable write of the item list itself happens only at
termination. -/
theorem C5_cursor_saved_only_after_merge :
    ∀ (resps : List GResp) (n : Nat) (username : List Char) (limit : Nat)
      (st : GState) (seen : Bool),
      cursorAfterMergeScan seen (gLoop n username limit st resps).1 = true := by
  intro resps
  induction resps with
  | nil =>
    intro n username limit st seen
    by_cases h : limit ≤ st.items.length <;>
      simp [gLoop, h, cursorAfterMergeScan]
  | cons r rest ih =>
    intro n username limit st seen
    by_cases h : limit ≤ st.items.length
    · cases r <;> simp [gLoop, h, cursorAfterMergeScan]
    · cases r with
      | netError kind =>
        rcases Bool.eq_false_or_eq_true (rotate_token n st.tokenIdx).1 with hr | hr <;>
          simp [gLoop, h, hr, consEv, cursorAfterMergeScan, ih]
      | apiErrors rateLimited =>
        rcases Bool.eq_false_or_eq_true (rotate_token n st.tokenIdx).1 with hr | hr <;>
          simp [gLoop, h, hr, consEv, cursorAfterMergeScan, ih]
      | noData =>
        rcases Bool.eq_false_or_eq_true (rotate_token n st.tokenIdx).1 with hr | hr <;>
          simp [gLoop, h, hr, consEv, cursorAfterMergeScan, ih]
      | page prs cur hasNext =>
        by_cases hp : prs = []
        · subst hp
          by_cases hc : cur = none
          · subst hc
            rcases Bool.eq_false_or_eq_true (rotate_token n st.tokenIdx).1 with hr | hr <;>
              simp [gLoop, h, hr, consEv, cursorAfterMergeScan, ih]
          · simp [gLoop, h, hc, cursorAfterMergeScan]
        · by_cases hh : hasNext = false
          · simp [gLoop, h, hp, hh, cursorAfterMergeScan]
          · simp [gLoop, h, hp, hh, consEv, cursorAfterMergeScan, ih]
